import Mathlib

/-!
Verification development for the sriov-hook-sidecar repository.

The development is a shallow embedding of the two source files of the
repository (src/cloudinit.go: the PreCloudInitIso request handler and the
user-data merger; and the unnamed discovery file: setNetworkInfo,
getSriovNetworkInfo, getNetworkDetails, getCloudInitManageResolv,
convertCloudInitNetworksToCloudInitNetConfig, cloudInitDiscoverNetworkData).

Modelling conventions:
  - Go byte strings are `List Char` (the program only moves bytes around,
    so characters stand for bytes; the one binary operation, base64
    decoding, is embedded explicitly below).
  - The netlink / resolv.conf host primitives (LinkByName, AddrList,
    GetMacDetails, RouteList, GetResolvConfDetailsFromPod) are a capability
    record `NetworkHandler` of pure functions; an `Except` result models the
    Go (value, error) pair.  AddrList/RouteList take the link name (in Go
    they take the link, which is itself resolved from the name).  IP
    addresses, masks and MACs are carried as their canonical display
    strings; `GetResolvConfDetailsFromPod` hands back nameservers already
    as display strings (the `net.IP(ns).String()` conversion of the source
    is absorbed into the capability, which is external to the repository).
  - The package-level mutable `disableResolv` flag is threaded explicitly
    as a `Bool` state; the package-level read-only `HostsIpAddress` string
    is passed as a parameter.
  - `yaml.Marshal` of the network-config document is deterministic and
    injective in the VIF list, and cannot fail on these fixed schemas, so
    the success value of the pipeline carries the VIF list itself; the
    resolver document is marshalled concretely (`marshalManageResolv`)
    because the user-data merger inspects its bytes.
  - A Go `panic` is a distinguished `HookResult.panicked` outcome, distinct
    from an error returned to the gRPC caller (`HookResult.failed`).
-/

/-! ## Byte-string primitives (strings.HasPrefix, bytes.Contains, base64) -/

/-- Go `strings.HasPrefix(s, p)` on byte strings: `charsHasPre p s` is true
iff `p` is a prefix of `s`. -/
def charsHasPre : List Char → List Char → Bool
  | [], _ => true
  | _ :: _, [] => false
  | a :: ps, b :: ss => a == b && charsHasPre ps ss

/-- Go `bytes.Contains(s, sub)`: true iff `sub` occurs as a contiguous
substring of `s`. -/
def charsContains : List Char → List Char → Bool
  | [], sub => sub.isEmpty
  | s@(_ :: rest), sub => charsHasPre sub s || charsContains rest sub

/-- Value of one character of the standard base64 alphabet. -/
def b64Val (c : Char) : Option Nat :=
  if 'A' ≤ c ∧ c ≤ 'Z' then some (c.toNat - 'A'.toNat)
  else if 'a' ≤ c ∧ c ≤ 'z' then some (c.toNat - 'a'.toNat + 26)
  else if '0' ≤ c ∧ c ≤ '9' then some (c.toNat - '0'.toNat + 52)
  else if c = '+' then some 62
  else if c = '/' then some 63
  else none

/-- Decode base64 quanta of four characters (Go `base64.StdEncoding`):
`=` padding is accepted only in the final quantum, any other non-alphabet
character is an error. Decoded bytes are carried as characters. -/
def b64DecodeGroups : List Char → Option (List Char)
  | [] => some []
  | a :: b :: c :: d :: rest =>
    match b64Val a, b64Val b with
    | some va, some vb =>
      if c = '=' then
        if d = '=' ∧ rest = [] then some [Char.ofNat (va * 4 + vb / 16)] else none
      else
        match b64Val c with
        | some vc =>
          if d = '=' then
            if rest = [] then
              some [Char.ofNat (va * 4 + vb / 16), Char.ofNat (vb % 16 * 16 + vc / 4)]
            else none
          else
            match b64Val d with
            | some vd =>
              match b64DecodeGroups rest with
              | some out =>
                some (Char.ofNat (va * 4 + vb / 16) :: Char.ofNat (vb % 16 * 16 + vc / 4) ::
                      Char.ofNat (vc % 4 * 64 + vd) :: out)
              | none => none
            | none => none
        | none => none
    | _, _ => none
  | _ => none

/-- Go `base64.StdEncoding.DecodeString`: carriage returns and newlines are
ignored, the remaining length must be a multiple of four. -/
def base64Decode (s : List Char) : Option (List Char) :=
  b64DecodeGroups (s.filter (fun c => c != '\r' && c != '\n'))

/-! ## Data model (kubevirt API types, restricted to the fields the source reads) -/

/-- A declared VM network (`v1.Network`): `Multus = some d` models a Multus
attachment with `Default = d`; `Genie` models a Genie attachment being present. -/
structure VmNetwork where
  Name : String
  Multus : Option Bool
  Genie : Bool
deriving DecidableEq

/-- A domain interface (`v1.Interface`): the three binding-method pointers the
source tests are modelled as independent presence flags. -/
structure VmInterface where
  Name : String
  SRIOV : Bool
  Bridge : Bool
  Masquerade : Bool
deriving DecidableEq

/-- The parts of a `v1.VirtualMachineInstance` the source reads. -/
structure VMI where
  Networks : List VmNetwork
  Interfaces : List VmInterface
  Hostname : String
deriving DecidableEq

/-- `v1.CloudInitNoCloudSource`, restricted to the fields the source reads or
writes; `NetworkDataSecretRef` records presence of the pointer. -/
structure CloudInitNoCloudSource where
  UserData : List Char
  UserDataBase64 : List Char
  NetworkData : List Char
  NetworkDataBase64 : List Char
  NetworkDataSecretRef : Bool
deriving DecidableEq

/-- A host link as the source uses it (only the MTU attribute is read). -/
structure HostLink where
  MTU : Nat
deriving DecidableEq

/-- A `netlink.Addr`: its IPNet display string (for example `10.0.0.5/24`)
and the bare IP display string. -/
structure Addr where
  IPNet : String
  IP : String
deriving DecidableEq

/-- Destination of a `netlink.Route`: displays of `Dst.IP` and of `Dst.Mask`. -/
structure RouteDst where
  IP : String
  Mask : String
deriving DecidableEq

/-- A `netlink.Route` as the source reads it: optional destination, source
and gateway.  `none` is a Go nil; `Src.Equal(nil)` and `Gw.Equal(nil)` of
the source are `Option.isNone` here, and IP equality is equality of the
canonical display strings. -/
structure NetlinkRoute where
  Dst : Option RouteDst
  Src : Option String
  Gw : Option String
deriving DecidableEq

/-- `network.VIF` as filled in by `getNetworkDetails`: `IP = none` models the
zero `netlink.Addr` left when the address list is empty. -/
structure VIF where
  Name : String
  IP : Option Addr
  MAC : String
  Routes : List NetlinkRoute
  Mtu : Nat
deriving DecidableEq

/-- A cloud-init network-config v1 route entry (`CloudInitSubnetRoute`);
empty strings are Go zero values (omitted on marshalling). -/
structure CloudInitSubnetRoute where
  Network : String
  Netmask : String
  Gateway : String
deriving DecidableEq

/-- `CloudInitResolvConf`. -/
structure CloudInitResolvConf where
  NameServers : List String
  SearchDomains : List String
  Domain : String
deriving DecidableEq

/-- `CloudInitManageResolv`. -/
structure CloudInitManageResolv where
  ManageResolv : Bool
  ResolvConf : CloudInitResolvConf
deriving DecidableEq

/-- The capability record for all host queries the source performs
(netlink link/address/MAC/route lookups and the pod resolv.conf read). -/
structure NetworkHandler where
  linkByName : String → Except String HostLink
  addrList : String → Except String (List Addr)
  getMacDetails : String → Except String String
  routeList : String → Except String (List NetlinkRoute)
  resolvConfDetails : Except String (List String × List String)

/-! ## Go maps as association lists (insertion order, overwrite on re-insert) -/

/-- Map lookup. -/
def lookupA {α : Type} (m : List (String × α)) (k : String) : Option α :=
  match m.find? (fun p => p.1 == k) with
  | some p => some p.2
  | none => none

/-- Map insert/overwrite; `(updateA m k v).length` matches Go `len` after the
assignment. -/
def updateA {α : Type} (m : List (String × α)) (k : String) (v : α) :
    List (String × α) :=
  if m.any (fun p => p.1 == k) then
    m.map (fun p => if p.1 == k then (k, v) else p)
  else m ++ [(k, v)]

/-! ## setNetworkInfo -/

/-- Loop of `setNetworkInfo`: builds the name-to-network map and the
name-to-link-index map.  A default Multus network gets index 0, other Multus
networks get 1, 2, ... in declaration order; a Genie network gets the current
size of the index map (Go `len(cniNetworks)` before the assignment). -/
def setNetworkInfoLoop : List VmNetwork → List (String × VmNetwork) →
    List (String × Nat) → Nat → List (String × VmNetwork) × List (String × Nat)
  | [], networks, cni, _ => (networks, cni)
  | n :: rest, networks, cni, idx =>
    let step : List (String × Nat) × Nat :=
      match n.Multus with
      | some true => (updateA cni n.Name 0, idx)
      | some false => (updateA cni n.Name idx, idx + 1)
      | none => (cni, idx)
    let cni2 := if n.Genie then updateA step.1 n.Name step.1.length else step.1
    setNetworkInfoLoop rest (updateA networks n.Name n) cni2 step.2

/-- `setNetworkInfo` of the source: two maps built in one pass over
`vmi.Spec.Networks`, with the non-default Multus counter starting at 1. -/
def setNetworkInfo (nets : List VmNetwork) :
    List (String × VmNetwork) × List (String × Nat) :=
  setNetworkInfoLoop nets [] [] 1

/-! ## getNetworkDetails -/

/-- `getNetworkDetails` of the source: resolve the link, take the first IPv4
address if any, fetch the MAC, list the routes, read the MTU (a uint16 cast
in Go, hence the mod). Each failing query returns its error. -/
def getNetworkDetails (h : NetworkHandler) (intName : String) :
    Except String VIF :=
  match h.linkByName intName with
  | Except.error e => Except.error e
  | Except.ok link =>
    match h.addrList intName with
    | Except.error e => Except.error e
    | Except.ok addrs =>
      match h.getMacDetails intName with
      | Except.error e => Except.error e
      | Except.ok mac =>
        match h.routeList intName with
        | Except.error e => Except.error e
        | Except.ok routes =>
          Except.ok { Name := intName, IP := addrs.head?, MAC := mac,
                      Routes := routes, Mtu := link.MTU % 65536 }

/-! ## getSriovNetworkInfo -/

/-- The link-name kind derived from a CNI network, as computed inside
`getSriovNetworkInfo`: `eth` for a default Multus or a Genie network, `net`
for a non-default Multus network, and the empty string otherwise (the source
comment assumes this last case cannot arise). -/
def cniLinkPre (net : VmNetwork) : String :=
  match net.Multus with
  | some true => "eth"
  | some false => "net"
  | none => if net.Genie then "eth" else ""

/-- Loop of `getSriovNetworkInfo` over `vmi.Spec.Domain.Devices.Interfaces`.
State: accumulated VIFs, the package-level `disableResolv` flag, and a trace
of the link names handed to `getNetworkDetails` (each such call immediately
issues host queries, `LinkByName` first).  An interface whose network name is
not declared aborts with the `failed to find network` error; a bridge or
masquerade interface sets the flag; an SR-IOV interface on a CNI network has
host details gathered for link name kind-and-index.  An empty VIF list at
the end is the distinguished `No SRIOV interfaces found` error. -/
def sriovLoop (h : NetworkHandler) (networks : List (String × VmNetwork))
    (cni : List (String × Nat)) : List VmInterface → List VIF → Bool →
    List String → Except String (List VIF) × Bool × List String
  | [], vifs, st, q =>
    (if vifs.isEmpty then Except.error "No SRIOV interfaces found"
     else Except.ok vifs, st, q)
  | iface :: rest, vifs, st, q =>
    match lookupA networks iface.Name with
    | none => (Except.error ("failed to find network " ++ iface.Name), st, q)
    | some net =>
      let st2 := if iface.Bridge || iface.Masquerade then true else st
      match lookupA cni iface.Name with
      | none => sriovLoop h networks cni rest vifs st2 q
      | some value =>
        if iface.SRIOV then
          let nm := cniLinkPre net ++ toString value
          match getNetworkDetails h nm with
          | Except.error e => (Except.error e, st2, q ++ [nm])
          | Except.ok vif => sriovLoop h networks cni rest (vifs ++ [vif]) st2 (q ++ [nm])
        else sriovLoop h networks cni rest vifs st2 q

/-- `getSriovNetworkInfo` of the source, with the `disableResolv` state and
the host-query trace made explicit. -/
def getSriovNetworkInfo (h : NetworkHandler) (st : Bool) (vmi : VMI) :
    Except String (List VIF) × Bool × List String :=
  sriovLoop h (setNetworkInfo vmi.Networks).1 (setNetworkInfo vmi.Networks).2
    vmi.Interfaces [] st []

/-! ## Route synthesis (the static-subnet route loop of
convertCloudInitNetworksToCloudInitNetConfig) -/

/-- Display of a possibly-nil Go `net.IP` (`nil.String()` is `"<nil>"`). -/
def goIPString : Option String → String
  | none => "<nil>"
  | some s => s

/-- The first skip condition of the route loop: destination, source and
gateway all nil. -/
def routeEmpty (r : NetlinkRoute) : Bool :=
  r.Dst.isNone && r.Src.isNone && r.Gw.isNone

/-- The second skip condition: a non-nil source equal to the interface's own
primary address. -/
def routeSelf (vifIP : String) (r : NetlinkRoute) : Bool :=
  match r.Src with
  | some s => s == vifIP
  | none => false

/-- The route-list entry built for a route with a destination. -/
def routeEntryOf (d : RouteDst) (gw : Option String) : CloudInitSubnetRoute :=
  { Network := d.IP, Netmask := d.Mask,
    Gateway := match gw with | some g => g | none => "" }

/-- The route loop of `convertCloudInitNetworksToCloudInitNetConfig`
(the `static` subnet branch), for an interface whose primary address IP is
`vifIP`: skip all-nil routes, skip self-routes, let a destination-less
route overwrite the subnet gateway, and append every other route to the
route list.  `gw` and `acc` are the subnet-gateway field (Go zero value
`""`) and route-list accumulator. -/
def processVifRoutes (vifIP : String) :
    List NetlinkRoute → String → List CloudInitSubnetRoute →
    String × List CloudInitSubnetRoute
  | [], gw, acc => (gw, acc)
  | r :: rest, gw, acc =>
    if routeEmpty r then processVifRoutes vifIP rest gw acc
    else if routeSelf vifIP r then processVifRoutes vifIP rest gw acc
    else
      match r.Dst with
      | none => processVifRoutes vifIP rest (goIPString r.Gw) acc
      | some d => processVifRoutes vifIP rest gw (acc ++ [routeEntryOf d r.Gw])

/-- Modelled from the spec (section 4.3), for comparison with the source
loop: a route survives into the route list iff it is not the all-empty
placeholder, is not a self-route, and has a destination. -/
def specKeptEntry (vifIP : String) (r : NetlinkRoute) : Bool :=
  !routeEmpty r && !routeSelf vifIP r && r.Dst.isSome

/-- Modelled from the spec (section 4.3): a surviving route with no
destination is a default route feeding the subnet gateway field. -/
def specDefaultRoute (vifIP : String) (r : NetlinkRoute) : Bool :=
  !routeEmpty r && !routeSelf vifIP r && r.Dst.isNone

/-- Modelled from the spec (section 4.3): the synthesized route list, in
order, as a filter-and-map. -/
def specRouteEntries (vifIP : String) (routes : List NetlinkRoute) :
    List CloudInitSubnetRoute :=
  (routes.filter (specKeptEntry vifIP)).map (fun r =>
    match r.Dst with
    | some d => routeEntryOf d r.Gw
    | none => { Network := "", Netmask := "", Gateway := "" })

/-- Modelled from the spec (section 4.3): the subnet gateway is the gateway
display of the last surviving default route, or the zero value. -/
def specSubnetGateway (vifIP : String) (routes : List NetlinkRoute) : String :=
  (((routes.filter (specDefaultRoute vifIP)).map (fun r => goIPString r.Gw)).getLast?).getD ""

/-! ## Resolver document -/

/-- `getCloudInitManageResolv` of the source: skip (empty document) when
`disableResolv` is set; otherwise one resolv.conf read, whose failure is
propagated, and a document with the manage flag forced on. -/
def getCloudInitManageResolv (h : NetworkHandler) (st : Bool) :
    Except String CloudInitManageResolv :=
  if st then
    Except.ok { ManageResolv := false,
                ResolvConf := { NameServers := [], SearchDomains := [], Domain := "" } }
  else
    match h.resolvConfDetails with
    | Except.error e => Except.error e
    | Except.ok nssd =>
      Except.ok { ManageResolv := true,
                  ResolvConf := { NameServers := nssd.1, SearchDomains := nssd.2,
                                  Domain := "" } }

/-- One `- item` line per list element, at the two-space indent yaml.v2 uses
for a sequence nested under a mapping key. -/
def yamlItems : List String → List Char
  | [] => []
  | s :: rest => String.toList "  - " ++ String.toList s ++ '\n' :: yamlItems rest

/-- The inner `resolv_conf` mapping as yaml.v2 renders it (omitempty on each
field). -/
def marshalResolvConf (rc : CloudInitResolvConf) : List Char :=
  (if rc.NameServers.isEmpty then [] else
    String.toList "  nameservers:\n" ++ yamlItems rc.NameServers) ++
  (if rc.SearchDomains.isEmpty then [] else
    String.toList "  searchdomains:\n" ++ yamlItems rc.SearchDomains) ++
  (if rc.Domain = "" then [] else
    String.toList "  domain: " ++ String.toList rc.Domain ++ ['\n'])

/-- `yaml.Marshal` of a `CloudInitManageResolv` document, rendered concretely
for this fixed schema (the merger inspects the bytes). -/
def marshalManageResolv (d : CloudInitManageResolv) : List Char :=
  (if d.ManageResolv then String.toList "manage_resolv_conf: true\n" else []) ++
  (if marshalResolvConf d.ResolvConf = [] then String.toList "resolv_conf: \x7b\x7d\n"
   else String.toList "resolv_conf:\n" ++ marshalResolvConf d.ResolvConf)

/-! ## cloudInitDiscoverNetworkData -/

/-- `cloudInitDiscoverNetworkData` of the source.  The network-config
document is `yaml.Marshal` of `convertCloudInitNetworksToCloudInitNetConfig`
of the VIF list, a deterministic injective function of the VIFs that cannot
fail, so the success value carries the VIF list together with the resolver
document bytes (empty when the manage flag is off, as in the source). -/
def cloudInitDiscoverNetworkData (h : NetworkHandler) (st : Bool) (vmi : VMI) :
    Except String (List VIF × List Char) × Bool × List String :=
  match getSriovNetworkInfo h st vmi with
  | (Except.error e, st2, q) => (Except.error e, st2, q)
  | (Except.ok vifs, st2, q) =>
    if vifs.isEmpty then (Except.ok (vifs, []), st2, q)
    else
      match getCloudInitManageResolv h st2 with
      | Except.error e => (Except.error e, st2, q)
      | Except.ok doc =>
        (Except.ok (vifs, if doc.ManageResolv then marshalManageResolv doc else []),
         st2, q)

/-! ## User-data merger (setUserData, setAdditionalData) -/

/-- The default user-data document. -/
def cloudConfigHeaderData : List Char := String.toList "#cloud-config\n"

/-- The header that makes a user-data document eligible for augmentation. -/
def headerChars : List Char := String.toList "#cloud-config"

/-- The marker whose presence suppresses the resolver append. -/
def markerChars : List Char := String.toList "manage_resolv_conf:"

/-- Tail of `setUserData`: an empty document is replaced by the
`#cloud-config` header. -/
def setUserDataFrom (userData : List Char) : Except String (List Char) :=
  if userData.length = 0 then Except.ok cloudConfigHeaderData
  else Except.ok userData

/-- `setUserData` of the source.  NOTE the faithful quirk: in the Go source
the `UserDataBase64` branch declares the decode result with `:=`, which
creates a NEW variable shadowing the enclosing `userData`; on a successful
decode the decoded bytes are therefore dropped and the enclosing `userData`
is still empty, so the function falls through to the `#cloud-config`
default.  Only a failed decode is observable (its error is returned). -/
def setUserData (cid : CloudInitNoCloudSource) : Except String (List Char) :=
  if cid.UserData ≠ [] then setUserDataFrom cid.UserData
  else if cid.UserDataBase64 ≠ [] then
    match base64Decode cid.UserDataBase64 with
    | none => Except.error "illegal base64 data"
    | some _ => setUserDataFrom []
  else setUserDataFrom []

/-- The resolver-augmentation half of `setAdditionalData`: append a newline
and the resolver bytes when the resolver data is non-empty, the document
starts with `#cloud-config`, and the `manage_resolv_conf:` marker is not
already present (the inner length test is repeated as in the source). -/
def resolvStep (resolvData userData : List Char) : List Char :=
  if 0 < resolvData.length then
    if charsHasPre headerChars userData then
      if charsContains userData markerChars then userData
      else if 0 < resolvData.length then userData ++ '\n' :: resolvData
      else userData
    else userData
  else userData

/-- The bootcmd block appended for the /etc/hosts entry. -/
def bootStr (hostsIp hostname : List Char) : List Char :=
  String.toList "bootcmd:\n  - cloud-init-per instance etcHosts sh -c \"echo " ++
    hostsIp ++ ' ' :: hostname ++ String.toList " >> /etc/hosts\"\n"

/-- The hostname-augmentation half of `setAdditionalData`: append the
bootcmd block whenever the hosts IP is non-empty and the document starts
with `#cloud-config` - there is no already-present check. -/
def bootcmdStep (hostsIp hostname userData : List Char) : List Char :=
  if 0 < hostsIp.length then
    if charsHasPre headerChars userData then userData ++ bootStr hostsIp hostname
    else userData
  else userData

/-- `setAdditionalData` of the source: the resolver step, then the bootcmd
step; the package-level `HostsIpAddress` is the first parameter. -/
def setAdditionalData (hostsIp hostname resolvData userData : List Char) :
    List Char :=
  bootcmdStep hostsIp hostname (resolvStep resolvData userData)

/-! ## PreCloudInitIso -/

/-- Outcome of one `PreCloudInitIso` call.  `panicked` is a Go panic
(process crash); `failed` is an error returned to the gRPC caller together
with the original cloud-init bytes; `passthrough` returns the original
bytes with no error; `succeeded` returns the re-marshalled source whose
`UserDataBase64` and `NetworkDataBase64` are the base64 encodings of the
carried user data and of the network-config document of the carried VIFs,
and whose `UserData` is cleared (base64 and the final `json.Marshal` are
injective and total, so the pre-encoding values are carried). -/
inductive HookResult where
  | panicked (msg : String)
  | failed (msg : String)
  | passthrough
  | succeeded (vifs : List VIF) (userData : List Char)
deriving DecidableEq

/-- `PreCloudInitIso` of the source (the handler body after the two
unmarshal steps, which on malformed input panic before this logic runs):
pass through when any network-data field is already set; panic when
discovery fails; return a call-level error when `setUserData` fails;
otherwise merge and succeed.  Result is paired with the final
`disableResolv` flag and the host-query trace. -/
def PreCloudInitIso (h : NetworkHandler) (hostsIp : List Char) (st : Bool)
    (vmi : VMI) (cid : CloudInitNoCloudSource) :
    HookResult × Bool × List String :=
  if cid.NetworkData ≠ [] ∨ cid.NetworkDataBase64 ≠ [] ∨ cid.NetworkDataSecretRef = true then
    (HookResult.passthrough, st, [])
  else
    match cloudInitDiscoverNetworkData h st vmi with
    | (Except.error e, st2, q) => (HookResult.panicked e, st2, q)
    | (Except.ok nd, st2, q) =>
      match setUserData cid with
      | Except.error e => (HookResult.failed e, st2, q)
      | Except.ok userData =>
        (HookResult.succeeded nd.1 (setAdditionalData hostsIp vmi.Hostname.toList nd.2 userData),
         st2, q)

/-! ## Concrete fixtures for counterexamples and witnesses -/

/-- A host on which every query succeeds: each link has MTU 1500, primary
address 10.0.0.5/24, a fixed MAC, no routes; the pod resolv.conf holds one
nameserver and one search domain. -/
def hOk : NetworkHandler :=
  { linkByName := fun _ => Except.ok { MTU := 1500 },
    addrList := fun _ => Except.ok [{ IPNet := "10.0.0.5/24", IP := "10.0.0.5" }],
    getMacDetails := fun _ => Except.ok "aa:bb:cc:dd:ee:ff",
    routeList := fun _ => Except.ok [],
    resolvConfDetails := Except.ok (["8.8.8.8"], ["example.com"]) }

/-- A cloud-init source with every field empty. -/
def cidEmpty : CloudInitNoCloudSource :=
  { UserData := [], UserDataBase64 := [], NetworkData := [],
    NetworkDataBase64 := [], NetworkDataSecretRef := false }

/-- Default-Multus network named A. -/
def netA : VmNetwork := { Name := "A", Multus := some true, Genie := false }

/-- Non-default Multus network named B. -/
def netB : VmNetwork := { Name := "B", Multus := some false, Genie := false }

/-- Non-default Multus network named C. -/
def netC : VmNetwork := { Name := "C", Multus := some false, Genie := false }

/-- The declaration order A (default), B, C of claim C5. -/
def netsABC : List VmNetwork := [netA, netB, netC]

/-- An SR-IOV interface on network `n`. -/
def sriovIf (n : String) : VmInterface :=
  { Name := n, SRIOV := true, Bridge := false, Masquerade := false }

/-- A bridge interface on network `n`. -/
def bridgeIf (n : String) : VmInterface :=
  { Name := n, SRIOV := false, Bridge := true, Masquerade := false }

/-- An interface with no binding method of interest on network `n`. -/
def plainIf (n : String) : VmInterface :=
  { Name := n, SRIOV := false, Bridge := false, Masquerade := false }

/-- A VM with one declared network and one non-SR-IOV interface on it. -/
def vmiNoSriov : VMI :=
  { Networks := [netA], Interfaces := [plainIf "A"], Hostname := "vm" }

/-- A VM whose second interface references the undeclared network Z while
its first interface is SR-IOV on a declared CNI network. -/
def vmiLateBad : VMI :=
  { Networks := [netA], Interfaces := [sriovIf "A", plainIf "Z"], Hostname := "vm" }

/-- VM A of the two-run scenario: a bridge interface and an SR-IOV interface. -/
def vmiA : VMI :=
  { Networks := [{ Name := "n1", Multus := some true, Genie := false },
                 { Name := "n2", Multus := some false, Genie := false }],
    Interfaces := [bridgeIf "n1", sriovIf "n2"], Hostname := "vma" }

/-- VM B of the two-run scenario: one SR-IOV interface, no bridge. -/
def vmiB : VMI :=
  { Networks := [{ Name := "m", Multus := some true, Genie := false }],
    Interfaces := [sriovIf "m"], Hostname := "vmb" }

/-- Cloud-init source whose only set field is a valid base64 user data. -/
def cidB64 : CloudInitNoCloudSource :=
  { UserData := [], UserDataBase64 := String.toList "aGVsbG8=", NetworkData := [],
    NetworkDataBase64 := [], NetworkDataSecretRef := false }

/-- Cloud-init source whose base64 user data is malformed. -/
def cidBadB64 : CloudInitNoCloudSource :=
  { UserData := [], UserDataBase64 := String.toList "%%%%", NetworkData := [],
    NetworkDataBase64 := [], NetworkDataSecretRef := false }

/-! ## Helper lemmas about the byte-string primitives -/

theorem charsContains_cons (x : Char) (rest sub : List Char) :
    charsContains (x :: rest) sub =
      (charsHasPre sub (x :: rest) || charsContains rest sub) := rfl

theorem charsHasPre_append (p s t : List Char) (h : charsHasPre p s = true) :
    charsHasPre p (s ++ t) = true := by
  induction p generalizing s with
  | nil => simp [charsHasPre]
  | cons a ps ih =>
    cases s with
    | nil => simp [charsHasPre] at h
    | cons b ss =>
      simp only [charsHasPre, Bool.and_eq_true, beq_iff_eq] at h
      simp only [List.cons_append, charsHasPre, Bool.and_eq_true, beq_iff_eq]
      exact ⟨h.1, ih ss h.2⟩

theorem charsContains_append_left (u s sub : List Char)
    (h : charsContains s sub = true) : charsContains (u ++ s) sub = true := by
  induction u with
  | nil => simpa using h
  | cons x xs ih =>
    rw [List.cons_append, charsContains_cons]
    simp only [Bool.or_eq_true]
    exact Or.inr ih

/-! ## Claim C2 -/

/-- Claim C2 (the code contradicts it): on a cloud-init source whose
UserData is empty and whose UserDataBase64 is valid base64 of `hello`,
the decode succeeds with `hello`, yet `setUserData` returns the default
`#cloud-config` header - the Go `:=` in the decode branch shadows the
enclosing variable and the decoded bytes are dropped.  A failed decode,
by contrast, is propagated as an error, as the claim states. -/
theorem C2_decode_shadowed :
    base64Decode (String.toList "aGVsbG8=") = some (String.toList "hello") ∧
    setUserData cidB64 = Except.ok (String.toList "#cloud-config\n") ∧
    String.toList "#cloud-config\n" ≠ String.toList "hello" ∧
    setUserData cidBadB64 = Except.error "illegal base64 data" :=
  ⟨rfl, rfl, by decide, rfl⟩

/-! ## Claim C8 -/

/-- Claim C8: a cloud-init source with any network-data field already set
is passed through unchanged: no error, no state change, no host query,
independently of the host and the VM specification. -/
theorem C8_passthrough (h : NetworkHandler) (hostsIp : List Char) (st : Bool)
    (vmi : VMI) (cid : CloudInitNoCloudSource)
    (hset : cid.NetworkData ≠ [] ∨ cid.NetworkDataBase64 ≠ [] ∨
      cid.NetworkDataSecretRef = true) :
    PreCloudInitIso h hostsIp st vmi cid = (HookResult.passthrough, st, []) := by
  unfold PreCloudInitIso
  rw [if_pos hset]

/-- Witness for C8 at a concrete input. -/
theorem C8_witness :
    PreCloudInitIso hOk [] false vmiNoSriov
      { cidEmpty with NetworkData := String.toList "v" } =
      (HookResult.passthrough, false, []) :=
  C8_passthrough hOk [] false vmiNoSriov _ (Or.inl (by decide))

/-! ## Claim C5 -/

/-- Claim C5: index assignment for the declaration order A (default Multus),
B (Multus), C (Multus) is 0, 1, 2; the computed maps depend only on the
declared networks, not on the interfaces referencing them; an SR-IOV link
name kind is `eth` for default-Multus and Genie networks and `net` for
non-default Multus networks; concretely, interfaces referencing A, B, C are
looked up on the host as eth0, net1, net2 in either reference order. -/
theorem C5_index_assignment :
    (lookupA (setNetworkInfo netsABC).2 "A" = some 0 ∧
     lookupA (setNetworkInfo netsABC).2 "B" = some 1 ∧
     lookupA (setNetworkInfo netsABC).2 "C" = some 2) ∧
    (∀ vmi1 vmi2 : VMI, vmi1.Networks = vmi2.Networks →
      setNetworkInfo vmi1.Networks = setNetworkInfo vmi2.Networks) ∧
    (∀ n : VmNetwork,
      (n.Multus = some true → cniLinkPre n = "eth") ∧
      (n.Multus = some false → cniLinkPre n = "net") ∧
      (n.Multus = none → n.Genie = true → cniLinkPre n = "eth")) ∧
    ((getSriovNetworkInfo hOk false
        { Networks := netsABC, Interfaces := [sriovIf "A", sriovIf "B", sriovIf "C"],
          Hostname := "vm" }).2.2 = ["eth0", "net1", "net2"] ∧
     (getSriovNetworkInfo hOk false
        { Networks := netsABC, Interfaces := [sriovIf "C", sriovIf "B", sriovIf "A"],
          Hostname := "vm" }).2.2 = ["net2", "net1", "eth0"]) := by
  refine ⟨⟨rfl, rfl, rfl⟩, ?_, ?_, rfl, rfl⟩
  · intro vmi1 vmi2 hnets
    rw [hnets]
  · intro n
    refine ⟨?_, ?_, ?_⟩
    · intro hm; simp [cniLinkPre, hm]
    · intro hm; simp [cniLinkPre, hm]
    · intro hm hg; simp [cniLinkPre, hm, hg]

/-- Witness for C5 at concrete networks. -/
theorem C5_witness :
    cniLinkPre netA = "eth" ∧ cniLinkPre netB = "net" ∧
      cniLinkPre { Name := "G", Multus := none, Genie := true } = "eth" :=
  ⟨(C5_index_assignment.2.2.1 netA).1 rfl,
   (C5_index_assignment.2.2.1 netB).2.1 rfl,
   (C5_index_assignment.2.2.1 { Name := "G", Multus := none, Genie := true }).2.2 rfl rfl⟩

/-! ## Claim C9 -/

/-- Claim C9: the hostname boot-command append has no already-present
guard: with a non-empty hosts IP and a document carrying the cloud-config
header, the bootcmd step of `setAdditionalData` (which is exactly
`setAdditionalData` when the resolver block is empty) appends its block
unconditionally, so applying it twice appends the block twice and differs
from applying it once. -/
theorem C9_bootcmd_unguarded (hostsIp hostname userData : List Char)
    (h1 : 0 < hostsIp.length) (h2 : charsHasPre headerChars userData = true) :
    setAdditionalData hostsIp hostname [] userData = bootcmdStep hostsIp hostname userData ∧
    bootcmdStep hostsIp hostname (bootcmdStep hostsIp hostname userData) =
      (userData ++ bootStr hostsIp hostname) ++ bootStr hostsIp hostname ∧
    bootcmdStep hostsIp hostname (bootcmdStep hostsIp hostname userData) ≠
      bootcmdStep hostsIp hostname userData := by
  have honce : bootcmdStep hostsIp hostname userData = userData ++ bootStr hostsIp hostname := by
    unfold bootcmdStep
    rw [if_pos h1, if_pos h2]
  have h2b : charsHasPre headerChars (userData ++ bootStr hostsIp hostname) = true :=
    charsHasPre_append _ _ _ h2
  have htwice : bootcmdStep hostsIp hostname (bootcmdStep hostsIp hostname userData) =
      (userData ++ bootStr hostsIp hostname) ++ bootStr hostsIp hostname := by
    rw [honce]
    unfold bootcmdStep
    rw [if_pos h1, if_pos h2b]
  have hb : 0 < (bootStr hostsIp hostname).length := by
    have h0 : 0 <
        (String.toList "bootcmd:\n  - cloud-init-per instance etcHosts sh -c \"echo ").length := by
      decide
    unfold bootStr
    simp only [List.length_append, List.length_cons]
    omega
  refine ⟨?_, htwice, ?_⟩
  · unfold setAdditionalData resolvStep
    simp
  · rw [htwice, honce]
    intro heq
    have hlen := congrArg List.length heq
    simp only [List.length_append] at hlen
    omega

/-- Witness for C9 at a concrete document, hosts IP and hostname. -/
theorem C9_witness :
    bootcmdStep (String.toList "10.0.0.2") (String.toList "vm1")
        (bootcmdStep (String.toList "10.0.0.2") (String.toList "vm1") cloudConfigHeaderData) ≠
      bootcmdStep (String.toList "10.0.0.2") (String.toList "vm1") cloudConfigHeaderData :=
  (C9_bootcmd_unguarded (String.toList "10.0.0.2") (String.toList "vm1")
    cloudConfigHeaderData (by decide) (by decide)).2.2

/-! ## Claim C7 -/

/-- Claim C7 as stated is false: for the resolver block `x` (non-empty but
without the `manage_resolv_conf:` marker) applying the resolver step twice
to the header document appends `x` twice and differs from applying it once. -/
theorem C7_counterexample :
    resolvStep (String.toList "x") (resolvStep (String.toList "x") cloudConfigHeaderData) ≠
      resolvStep (String.toList "x") cloudConfigHeaderData := by
  decide

/-- Claim C7 (amended): the resolver step is idempotent for every starting
document provided the resolver block itself contains the
`manage_resolv_conf:` marker - as every block produced by the pipeline's
resolver marshalling does - because the document produced by the first
application then carries the marker and the guard suppresses the second
append. -/
theorem C7_amended (resolvData userData : List Char)
    (hm : charsContains resolvData markerChars = true) :
    resolvStep resolvData (resolvStep resolvData userData) =
      resolvStep resolvData userData := by
  have hlen : 0 < resolvData.length := by
    cases resolvData with
    | nil => simp [charsContains, markerChars] at hm
    | cons a l => simp
  by_cases hp : charsHasPre headerChars userData = true
  · by_cases hc : charsContains userData markerChars = true
    · have honce : resolvStep resolvData userData = userData := by
        unfold resolvStep
        rw [if_pos hlen, if_pos hp, if_pos hc]
      rw [honce, honce]
    · have honce : resolvStep resolvData userData = userData ++ '\n' :: resolvData := by
        unfold resolvStep
        rw [if_pos hlen, if_pos hp, if_neg hc, if_pos hlen]
      have hp2 : charsHasPre headerChars (userData ++ '\n' :: resolvData) = true :=
        charsHasPre_append _ _ _ hp
      have hc2 : charsContains (userData ++ '\n' :: resolvData) markerChars = true := by
        have h1 : charsContains ('\n' :: resolvData) markerChars = true := by
          rw [charsContains_cons]
          simp only [Bool.or_eq_true]
          exact Or.inr hm
        exact charsContains_append_left userData _ _ h1
      rw [honce]
      unfold resolvStep
      rw [if_pos hlen, if_pos hp2, if_pos hc2]
  · have honce : resolvStep resolvData userData = userData := by
      unfold resolvStep
      rw [if_pos hlen, if_neg hp]
    rw [honce, honce]

/-- Witness for the amended C7 at a marker-carrying resolver block. -/
theorem C7_witness :
    resolvStep (String.toList "manage_resolv_conf: true\n")
        (resolvStep (String.toList "manage_resolv_conf: true\n") cloudConfigHeaderData) =
      resolvStep (String.toList "manage_resolv_conf: true\n") cloudConfigHeaderData :=
  C7_amended (String.toList "manage_resolv_conf: true\n") cloudConfigHeaderData (by decide)

/-! ## Claim C4 -/

theorem getLastD_cons (x d : String) (l : List String) :
    ((x :: l).getLast?).getD d = (l.getLast?).getD x := by
  induction l generalizing x d with
  | nil => rfl
  | cons y ys ih =>
    calc ((x :: y :: ys).getLast?).getD d
        = ((y :: ys).getLast?).getD d := by rw [List.getLast?_cons_cons]
      _ = (ys.getLast?).getD y := ih y d
      _ = ((y :: ys).getLast?).getD x := (ih y x).symm

/-- The route loop of the synthesizer, with arbitrary starting gateway and
accumulator, equals the spec-side filter-and-map description: the gateway
ends as the display of the last surviving default route (else the start
value), and the kept routes are appended in order. -/
theorem processVifRoutes_spec (vifIP : String) :
    ∀ (routes : List NetlinkRoute) (gw : String) (acc : List CloudInitSubnetRoute),
      processVifRoutes vifIP routes gw acc =
        ((((routes.filter (specDefaultRoute vifIP)).map
            (fun r => goIPString r.Gw)).getLast?).getD gw,
         acc ++ specRouteEntries vifIP routes) := by
  intro routes
  induction routes with
  | nil =>
    intro gw acc
    simp [processVifRoutes, specRouteEntries]
  | cons r rest ih =>
    intro gw acc
    cases he : routeEmpty r with
    | true =>
      have h1 : specDefaultRoute vifIP r = false := by simp [specDefaultRoute, he]
      have h2 : specKeptEntry vifIP r = false := by simp [specKeptEntry, he]
      have hL : processVifRoutes vifIP (r :: rest) gw acc =
          processVifRoutes vifIP rest gw acc := by
        simp only [processVifRoutes]
        rw [if_pos he]
      rw [hL, ih gw acc]
      simp [specRouteEntries, List.filter_cons, h1, h2]
    | false =>
      cases hs : routeSelf vifIP r with
      | true =>
        have h1 : specDefaultRoute vifIP r = false := by simp [specDefaultRoute, hs]
        have h2 : specKeptEntry vifIP r = false := by simp [specKeptEntry, hs]
        have hL : processVifRoutes vifIP (r :: rest) gw acc =
            processVifRoutes vifIP rest gw acc := by
          simp only [processVifRoutes]
          rw [if_neg (by simp [he]), if_pos hs]
        rw [hL, ih gw acc]
        simp [specRouteEntries, List.filter_cons, h1, h2]
      | false =>
        cases hd : r.Dst with
        | none =>
          have h1 : specDefaultRoute vifIP r = true := by
            simp [specDefaultRoute, he, hs, hd]
          have h2 : specKeptEntry vifIP r = false := by
            simp [specKeptEntry, he, hs, hd]
          have hL : processVifRoutes vifIP (r :: rest) gw acc =
              processVifRoutes vifIP rest (goIPString r.Gw) acc := by
            simp only [processVifRoutes]
            rw [if_neg (by simp [he]), if_neg (by simp [hs]), hd]
          rw [hL, ih _ acc]
          simp only [specRouteEntries, List.filter_cons, h1, h2, if_true, if_false,
            List.map_cons, Bool.false_eq_true, ite_false, ite_true]
          rw [getLastD_cons]
        | some d =>
          have h1 : specDefaultRoute vifIP r = false := by
            simp [specDefaultRoute, hd]
          have h2 : specKeptEntry vifIP r = true := by
            simp [specKeptEntry, he, hs, hd]
          have hL : processVifRoutes vifIP (r :: rest) gw acc =
              processVifRoutes vifIP rest gw (acc ++ [routeEntryOf d r.Gw]) := by
            simp only [processVifRoutes]
            rw [if_neg (by simp [he]), if_neg (by simp [hs]), hd]
          rw [hL, ih gw _]
          simp only [specRouteEntries, List.filter_cons, h1, h2, List.map_cons,
            Bool.false_eq_true, ite_false, ite_true, hd, List.append_assoc,
            List.singleton_append]
      
/-- Claim C4: for an interface with primary address `vifIP`, the route
loop started from the Go zero values drops all-empty placeholder routes and
self-routes, turns destination-less routes into the subnet gateway with
last-wins overwrite semantics (never into route-list entries), and turns
every other route into a route-list entry with destination network, netmask
and optional gateway - the spec-side description. -/
theorem C4_route_synthesis (vifIP : String) (routes : List NetlinkRoute) :
    processVifRoutes vifIP routes "" [] =
      (specSubnetGateway vifIP routes, specRouteEntries vifIP routes) := by
  rw [processVifRoutes_spec vifIP routes "" []]
  simp [specSubnetGateway]

/-! ## Claim C1 -/

/-- Claim C1 as stated is false at a concrete input: for a VM with one
resolving non-SR-IOV interface and an empty cloud-init source, the call
does not return the distinguished error - it panics with it (crashing the
process), which is a different outcome from a returned call-level error. -/
theorem C1_counterexample :
    (PreCloudInitIso hOk [] false vmiNoSriov cidEmpty).1 =
      HookResult.panicked "No SRIOV interfaces found" ∧
    HookResult.panicked "No SRIOV interfaces found" ≠
      HookResult.failed "No SRIOV interfaces found" :=
  ⟨rfl, by decide⟩

/-- When no interface of the list is SR-IOV and every interface's network
resolves, the discovery loop reaches its end with no VIFs (and no host
query) and reports the distinguished empty-condition error. -/
theorem sriovLoop_no_sriov (h : NetworkHandler) (networks : List (String × VmNetwork))
    (cni : List (String × Nat)) :
    ∀ (ifaces : List VmInterface) (vifs : List VIF) (st : Bool) (q : List String),
      (∀ i ∈ ifaces, i.SRIOV = false) →
      (∀ i ∈ ifaces, (lookupA networks i.Name).isSome) →
      (sriovLoop h networks cni ifaces vifs st q).1 =
        (if vifs.isEmpty then Except.error "No SRIOV interfaces found"
         else Except.ok vifs) ∧
      (sriovLoop h networks cni ifaces vifs st q).2.2 = q := by
  intro ifaces
  induction ifaces with
  | nil =>
    intro vifs st q _ _
    exact ⟨rfl, rfl⟩
  | cons i rest ih =>
    intro vifs st q hs hr
    have hsi : i.SRIOV = false := hs i (by simp)
    have hri := hr i (by simp)
    obtain ⟨net, hnet⟩ : ∃ net, lookupA networks i.Name = some net := by
      cases hcase : lookupA networks i.Name with
      | some v => exact ⟨v, rfl⟩
      | none => rw [hcase] at hri; simp at hri
    have hstep : sriovLoop h networks cni (i :: rest) vifs st q =
        sriovLoop h networks cni rest vifs
          (if i.Bridge || i.Masquerade then true else st) q := by
      cases hcni : lookupA cni i.Name with
      | none => simp only [sriovLoop, hnet, hcni]
      | some v => simp only [sriovLoop, hnet, hcni, hsi, Bool.false_eq_true, if_false]
    rw [hstep]
    exact ih vifs _ q (fun j hj => hs j (List.mem_cons_of_mem i hj))
      (fun j hj => hr j (List.mem_cons_of_mem i hj))

/-- Claim C1 (amended): inside the pipeline the conditions are indeed
distinguished returned errors - in particular a VM with zero SR-IOV
interfaces (all references resolving) makes `cloudInitDiscoverNetworkData`
return the distinguished `No SRIOV interfaces found` error - but
`PreCloudInitIso` does not return discovery errors to the caller: it
passes every one of them (the expected-empty condition and every
structural lookup error alike) to panic, crashing the process. -/
theorem C1_amended :
    (∀ (h : NetworkHandler) (hostsIp : List Char) (st : Bool) (vmi : VMI)
        (cid : CloudInitNoCloudSource) (e : String),
      cid.NetworkData = [] → cid.NetworkDataBase64 = [] →
      cid.NetworkDataSecretRef = false →
      (cloudInitDiscoverNetworkData h st vmi).1 = Except.error e →
      (PreCloudInitIso h hostsIp st vmi cid).1 = HookResult.panicked e) ∧
    (∀ (h : NetworkHandler) (st : Bool) (vmi : VMI),
      (∀ i ∈ vmi.Interfaces, i.SRIOV = false) →
      (∀ i ∈ vmi.Interfaces, (lookupA (setNetworkInfo vmi.Networks).1 i.Name).isSome) →
      (cloudInitDiscoverNetworkData h st vmi).1 =
        Except.error "No SRIOV interfaces found") := by
  constructor
  · intro h hostsIp st vmi cid e h1 h2 h3 hD
    have hcond : ¬(cid.NetworkData ≠ [] ∨ cid.NetworkDataBase64 ≠ [] ∨
        cid.NetworkDataSecretRef = true) := by
      simp [h1, h2, h3]
    unfold PreCloudInitIso
    rw [if_neg hcond]
    rcases hE : cloudInitDiscoverNetworkData h st vmi with ⟨res, st2, q⟩
    rw [hE] at hD
    simp only at hD
    cases res with
    | error e2 =>
      simp only [Except.error.injEq] at hD
      subst hD
      rfl
    | ok nd => exact absurd hD (by simp)
  · intro h st vmi hs hr
    have hloop := sriovLoop_no_sriov h (setNetworkInfo vmi.Networks).1
      (setNetworkInfo vmi.Networks).2 vmi.Interfaces [] st [] hs hr
    have hres : (getSriovNetworkInfo h st vmi).1 =
        Except.error "No SRIOV interfaces found" := by
      have h1 := hloop.1
      simpa [getSriovNetworkInfo] using h1
    unfold cloudInitDiscoverNetworkData
    rcases hL : getSriovNetworkInfo h st vmi with ⟨res, st2, q⟩
    rw [hL] at hres
    simp only at hres
    subst hres
    rfl

/-- Witness for the amended C1 at a concrete host, VM and cloud-init
source: the zero-SR-IOV condition is produced by the pipeline and turned
into a panic by the handler. -/
theorem C1_witness :
    (PreCloudInitIso hOk [] false vmiNoSriov cidEmpty).1 =
      HookResult.panicked "No SRIOV interfaces found" :=
  C1_amended.1 hOk [] false vmiNoSriov cidEmpty "No SRIOV interfaces found"
    rfl rfl rfl
    (C1_amended.2 hOk false vmiNoSriov (by decide) (by decide))

/-! ## Claim C3 -/

/-- Claim C3 as stated is false at a concrete pair of requests: running
request A (a VM with a bridge interface and an SR-IOV interface) first
leaves the `disableResolv` flag set, and request B (an SR-IOV-only VM)
then produces a different result than it does on a fresh process - its
user data lacks the resolver block.  The only differing input is the
threaded flag left behind by A. -/
theorem C3_counterexample :
    (PreCloudInitIso hOk []
        ((PreCloudInitIso hOk [] false vmiA cidEmpty).2.1) vmiB cidEmpty).1 ≠
      (PreCloudInitIso hOk [] false vmiB cidEmpty).1 := by
  decide

/-- The discovery loop leaves the `disableResolv` flag unchanged when no
interface of the list is bridge- or masquerade-typed. -/
theorem sriovLoop_st_no_dhcp (h : NetworkHandler) (networks : List (String × VmNetwork))
    (cni : List (String × Nat)) :
    ∀ (ifaces : List VmInterface) (vifs : List VIF) (st : Bool) (q : List String),
      (∀ i ∈ ifaces, i.Bridge = false ∧ i.Masquerade = false) →
      (sriovLoop h networks cni ifaces vifs st q).2.1 = st := by
  intro ifaces
  induction ifaces with
  | nil => intro vifs st q _; rfl
  | cons i rest ih =>
    intro vifs st q hb
    have hbi := hb i (by simp)
    have hrest : ∀ j ∈ rest, j.Bridge = false ∧ j.Masquerade = false :=
      fun j hj => hb j (List.mem_cons_of_mem i hj)
    have hst2 : (if i.Bridge || i.Masquerade then true else st) = st := by
      simp [hbi.1, hbi.2]
    cases hnet : lookupA networks i.Name with
    | none => simp only [sriovLoop, hnet]
    | some net =>
      cases hcni : lookupA cni i.Name with
      | none =>
        simp only [sriovLoop, hnet, hcni, hst2]
        exact ih vifs st q hrest
      | some v =>
        cases hsv : i.SRIOV with
        | false =>
          simp only [sriovLoop, hnet, hcni, hsv, Bool.false_eq_true, if_false, hst2]
          exact ih vifs st q hrest
        | true =>
          cases hgd : getNetworkDetails h (cniLinkPre net ++ toString v) with
          | error e => simp only [sriovLoop, hnet, hcni, hsv, if_true, hgd, hst2]
          | ok vif =>
            simp only [sriovLoop, hnet, hcni, hsv, if_true, hgd, hst2]
            exact ih _ st _ hrest

/-- `cloudInitDiscoverNetworkData` leaves the flag unchanged when no
interface is bridge- or masquerade-typed. -/
theorem discover_st_no_dhcp (h : NetworkHandler) (st : Bool) (vmi : VMI)
    (hb : ∀ i ∈ vmi.Interfaces, i.Bridge = false ∧ i.Masquerade = false) :
    (cloudInitDiscoverNetworkData h st vmi).2.1 = st := by
  have hloop := sriovLoop_st_no_dhcp h (setNetworkInfo vmi.Networks).1
    (setNetworkInfo vmi.Networks).2 vmi.Interfaces [] st [] hb
  unfold cloudInitDiscoverNetworkData
  rcases hL : getSriovNetworkInfo h st vmi with ⟨res, st2, q⟩
  have hst2 : st2 = st := by
    have hx : (getSriovNetworkInfo h st vmi).2.1 = st := hloop
    rw [hL] at hx
    exact hx
  subst hst2
  cases res with
  | error e => rfl
  | ok vifs =>
    by_cases hv : vifs.isEmpty = true
    · simp [hv]
    · cases hres : getCloudInitManageResolv h st2 with
      | error e => simp [hv, hres]
      | ok doc => simp [hv, hres]

/-- Claim C3 (amended): two-run independence holds exactly when the first
request does not flip the flag: a request whose VM has no bridge or
masquerade interface leaves the `disableResolv` flag unchanged, and any
request that leaves the flag unchanged has no influence on the documents
produced for a later request.  A request that does see a bridge or
masquerade interface sets the flag for the process lifetime, which is what
the counterexample exploits. -/
theorem C3_amended :
    (∀ (h : NetworkHandler) (hostsIp : List Char) (st : Bool) (vmi : VMI)
        (cid : CloudInitNoCloudSource),
      (∀ i ∈ vmi.Interfaces, i.Bridge = false ∧ i.Masquerade = false) →
      (PreCloudInitIso h hostsIp st vmi cid).2.1 = st) ∧
    (∀ (h : NetworkHandler) (hostsIp : List Char) (st : Bool) (vmi1 vmi2 : VMI)
        (cid1 cid2 : CloudInitNoCloudSource),
      (PreCloudInitIso h hostsIp st vmi1 cid1).2.1 = st →
      PreCloudInitIso h hostsIp ((PreCloudInitIso h hostsIp st vmi1 cid1).2.1) vmi2 cid2 =
        PreCloudInitIso h hostsIp st vmi2 cid2) := by
  constructor
  · intro h hostsIp st vmi cid hb
    unfold PreCloudInitIso
    by_cases hc : (cid.NetworkData ≠ [] ∨ cid.NetworkDataBase64 ≠ [] ∨
        cid.NetworkDataSecretRef = true)
    · rw [if_pos hc]
    · rw [if_neg hc]
      have hd := discover_st_no_dhcp h st vmi hb
      rcases hE : cloudInitDiscoverNetworkData h st vmi with ⟨res, st2, q⟩
      rw [hE] at hd
      simp only at hd
      subst hd
      cases res with
      | error e => rfl
      | ok nd =>
        cases hu : setUserData cid with
        | error e => simp [hu]
        | ok ud => simp [hu]
  · intro h hostsIp st vmi1 vmi2 cid1 cid2 heq
    rw [heq]

/-- Witness for the amended C3: the SR-IOV-only VM B leaves the flag
unchanged on a fresh process. -/
theorem C3_witness :
    (PreCloudInitIso hOk [] false vmiB cidEmpty).2.1 = false :=
  C3_amended.1 hOk [] false vmiB cidEmpty (by decide)

/-! ## Claim C6 -/

/-- Claim C6 as stated is false at a concrete input: when an SR-IOV
interface on a declared network precedes the interface with the undeclared
reference Z, the pipeline does fail with `failed to find network Z`, but a
host-link query for eth0 has already been performed - the query trace is
not empty. -/
theorem C6_counterexample :
    getSriovNetworkInfo hOk false vmiLateBad =
      (Except.error "failed to find network Z", false, ["eth0"]) ∧
    (["eth0"] : List String) ≠ [] :=
  ⟨rfl, by decide⟩

/-- When every interface before the offending one resolves and is not an
SR-IOV interface on a CNI-indexed network, the loop reaches the offending
interface having issued no host query and fails with the structural
`failed to find network` error. -/
theorem sriovLoop_bad_network (h : NetworkHandler)
    (networks : List (String × VmNetwork)) (cni : List (String × Nat))
    (bad : VmInterface) (post : List VmInterface)
    (hbad : lookupA networks bad.Name = none) :
    ∀ (before : List VmInterface) (vifs : List VIF) (st : Bool) (q : List String),
      (∀ i ∈ before, (lookupA networks i.Name).isSome ∧
        ¬(i.SRIOV = true ∧ (lookupA cni i.Name).isSome = true)) →
      (sriovLoop h networks cni (before ++ bad :: post) vifs st q).1 =
        Except.error ("failed to find network " ++ bad.Name) ∧
      (sriovLoop h networks cni (before ++ bad :: post) vifs st q).2.2 = q := by
  intro before
  induction before with
  | nil =>
    intro vifs st q _
    rw [List.nil_append]
    constructor
    · simp only [sriovLoop, hbad]
    · simp only [sriovLoop, hbad]
  | cons i rest ih =>
    intro vifs st q hp
    have hpi := hp i (by simp)
    have hrest : ∀ j ∈ rest, (lookupA networks j.Name).isSome ∧
        ¬(j.SRIOV = true ∧ (lookupA cni j.Name).isSome = true) :=
      fun j hj => hp j (List.mem_cons_of_mem i hj)
    obtain ⟨net, hnet⟩ : ∃ net, lookupA networks i.Name = some net := by
      cases hcase : lookupA networks i.Name with
      | some v => exact ⟨v, rfl⟩
      | none => rw [hcase] at hpi; simp at hpi
    rw [List.cons_append]
    cases hcni : lookupA cni i.Name with
    | none =>
      simp only [sriovLoop, hnet, hcni]
      exact ih vifs _ q hrest
    | some v =>
      have hsv : i.SRIOV = false := by
        cases hx : i.SRIOV with
        | false => rfl
        | true =>
          exact absurd ⟨hx, by rw [hcni]; rfl⟩ hpi.2
      simp only [sriovLoop, hnet, hcni, hsv, Bool.false_eq_true, if_false]
      exact ih vifs _ q hrest

/-- Claim C6 (amended): for a VM spec in which a domain interface
references an undeclared network and every interface declared before it
resolves and is not an SR-IOV interface on a CNI-indexed network, the
pipeline fails with the `failed to find network` structural error having
performed no host-link query at all.  (When an SR-IOV interface on a
declared CNI network precedes the offending one, its host queries are
performed first - the counterexample - so the claim's universal
no-query-before-failure form does not hold.) -/
theorem C6_amended (h : NetworkHandler) (st : Bool) (vmi : VMI)
    (before : List VmInterface) (bad : VmInterface) (post : List VmInterface)
    (hsplit : vmi.Interfaces = before ++ bad :: post)
    (hbad : lookupA (setNetworkInfo vmi.Networks).1 bad.Name = none)
    (hpre : ∀ i ∈ before, (lookupA (setNetworkInfo vmi.Networks).1 i.Name).isSome ∧
      ¬(i.SRIOV = true ∧ (lookupA (setNetworkInfo vmi.Networks).2 i.Name).isSome = true)) :
    (getSriovNetworkInfo h st vmi).1 =
      Except.error ("failed to find network " ++ bad.Name) ∧
    (getSriovNetworkInfo h st vmi).2.2 = [] := by
  have hmain := sriovLoop_bad_network h (setNetworkInfo vmi.Networks).1
    (setNetworkInfo vmi.Networks).2 bad post hbad before [] st [] hpre
  unfold getSriovNetworkInfo
  rw [hsplit]
  exact hmain

/-- Witness for the amended C6: a VM whose only interface references the
undeclared network Z fails structurally with an empty query trace. -/
theorem C6_witness :
    (getSriovNetworkInfo hOk false
        { Networks := [netA], Interfaces := [plainIf "Z"], Hostname := "vm" }).1 =
      Except.error ("failed to find network " ++ (plainIf "Z").Name) ∧
    (getSriovNetworkInfo hOk false
        { Networks := [netA], Interfaces := [plainIf "Z"], Hostname := "vm" }).2.2 = [] :=
  C6_amended hOk false
    { Networks := [netA], Interfaces := [plainIf "Z"], Hostname := "vm" }
    [] (plainIf "Z") [] rfl (by decide) (by decide)
